import Mathlib

/-!
Shallow embedding of the `aigent` CLI (files `src/agent/cli/start.py` and
`src/agent/scaffold.py`) and proofs about its configuration resolver and
environment scaffolder.
-/

namespace Aigent

/-! ## Configuration data model

`start` reads a TOML configuration with sections `agent` and `config`
(`read_config` lives in `agent/config.py`, which is not part of the visible
source).  TOML values reaching `str(...)` in `start.py` are either booleans or
strings, so a configuration value is modelled as one of the two. -/

/-- A TOML-loaded configuration value: a boolean or a string. -/
inductive ConfigValue
  | bool (b : Bool)
  | str (s : String)
deriving DecidableEq, Repr

/-- Python `str(...)` on a configuration value: `str(True) = "True"`,
`str(False) = "False"`, strings unchanged. -/
def pyStr : ConfigValue → String
  | .bool true => "True"
  | .bool false => "False"
  | .str s => s

/-- Python `str.lower()`: lower-case every character. -/
def pyLower (s : String) : String := ⟨s.data.map Char.toLower⟩

/-- Modelled from the spec: the `agent` section of the configuration file
(`agent/config.py` is not in the visible source).  Fields `prompt`, `url`,
`language`, `framework`; a missing key is `none` (matching
`config["agent"].get(item) is None` in `start.py`). -/
structure AgentSection where
  prompt : Option String
  url : Option String
  language : Option String
  framework : Option String
deriving DecidableEq, Repr

/-- Modelled from the spec: the `config` section of the configuration file,
with fields `headless`, `log_level` and `clean`; `start.py` reads all three
unconditionally, so they are total here. -/
structure ConfigSection where
  headless : ConfigValue
  log_level : ConfigValue
  clean : ConfigValue
deriving DecidableEq, Repr

/-- The whole configuration mapping: sections `agent` and `config`. -/
structure Config where
  agent : AgentSection
  config : ConfigSection
deriving DecidableEq, Repr

/-! ## The CLI `start` command (`src/agent/cli/start.py`)

`start` is embedded as a pure function from its CLI parameters and the
file-loaded configuration to the merged configuration together with a trace of
the observable actions it performs, in order.  CLI strings `prompt` and `url`
are `Option String` (the code guards on `is not None`); `clean`, `debug` and
`headless` are booleans defaulting to `False`; `language` and `framework` are
plain strings whose typer defaults are `"python"` and `"playwright"`. -/

/-- An observable action of `start`, in program order. -/
inductive StartEvent
  | setLoggerLevel (level : String)
  | setEnv (name value : String)
  /-- `os.popen(f"rm -rf \x7bTEST_DIR\x7d/*")`: delete the contents of the
  test directory, not the directory itself. -/
  | cleanTestDirContents
  | printErr (msg : String)
  /-- `raise typer.Exit()`: early exit with the default exit code 0. -/
  | exitZero
  | callAgent (prompt url : String)
deriving DecidableEq, Repr

/-- Line 50–51: `if prompt is not None: config["agent"]["prompt"] = prompt`. -/
def overridePrompt (prompt : Option String) (c : Config) : Config :=
  match prompt with
  | some p => { c with agent := { c.agent with prompt := some p } }
  | none => c

/-- Line 52–53: `if url is not None: config["agent"]["url"] = url`. -/
def overrideUrl (url : Option String) (c : Config) : Config :=
  match url with
  | some u => { c with agent := { c.agent with url := some u } }
  | none => c

/-- Line 54–55: `if headless: config["config"]["headless"] = headless`. -/
def overrideHeadless (headless : Bool) (c : Config) : Config :=
  if headless then { c with config := { c.config with headless := .bool true } } else c

/-- Line 56–57: `if debug: config["config"]["log_level"] = "DEBUG"`. -/
def overrideDebug (debug : Bool) (c : Config) : Config :=
  if debug then { c with config := { c.config with log_level := .str "DEBUG" } } else c

/-- Line 58–59: `if clean: config["config"]["clean"] = clean`. -/
def overrideClean (clean : Bool) (c : Config) : Config :=
  if clean then { c with config := { c.config with clean := .bool true } } else c

/-- Line 60–61: `if language: config["agent"]["language"] = language` —
a Python truthiness test, so any nonempty string overrides. -/
def overrideLanguage (language : String) (c : Config) : Config :=
  if language = "" then c
  else { c with agent := { c.agent with language := some language } }

/-- Line 62–63: `if framework: config["agent"]["framework"] = framework`. -/
def overrideFramework (framework : String) (c : Config) : Config :=
  if framework = "" then c
  else { c with agent := { c.agent with framework := some framework } }

/-- Lines 50–63 of `start.py`: overlay the CLI-supplied values onto the
file-loaded configuration, in program order. -/
def applyOverrides (prompt url : Option String) (clean debug headless : Bool)
    (language framework : String) (file : Config) : Config :=
  overrideFramework framework <| overrideLanguage language <| overrideClean clean <|
    overrideDebug debug <| overrideHeadless headless <| overrideUrl url <|
      overridePrompt prompt file

/-- Lines 66–68: if the merged `log_level` stringifies (lower-cased) to
`"debug"`, set the logger level and the `LOG_LEVEL` environment variable. -/
def logLevelEvents (c : Config) : List StartEvent :=
  if pyLower (pyStr c.config.log_level) = "debug" then
    [.setLoggerLevel "DEBUG", .setEnv "LOG_LEVEL" "DEBUG"]
  else []

/-- Lines 70–71: if the merged `headless` stringifies (lower-cased) to
`"true"`, export `HEADLESS=true`. -/
def headlessEvents (c : Config) : List StartEvent :=
  if pyLower (pyStr c.config.headless) = "true" then [.setEnv "HEADLESS" "true"]
  else []

/-- Lines 73–75: if the merged `clean` stringifies (lower-cased) to `"true"`,
delete the contents of the test directory. -/
def cleanEvents (c : Config) : List StartEvent :=
  if pyLower (pyStr c.config.clean) = "true" then [.cleanTestDirContents]
  else []

/-- The message printed for a missing required field `item`
(line 80–82 of `start.py`). -/
def missingFieldMsg (item : String) : String :=
  "Please set agent." ++ item ++
    " in the config.toml file or pass it as the --" ++ item ++ " CLI option."

/-- Lines 78–89: iterate `["url", "prompt"]`; on the first field whose value
is `None`, print the remediation message and raise `typer.Exit()` (exit code
0); otherwise call `agent(prompt=..., url=...)`. -/
def validateAndCall (a : AgentSection) : List StartEvent :=
  match a.url with
  | none => [.printErr (missingFieldMsg "url"), .exitZero]
  | some u =>
    match a.prompt with
    | none => [.printErr (missingFieldMsg "prompt"), .exitZero]
    | some p => [.callAgent p u]

/-- Lines 66–75 of `start.py`: the side effects applied from the merged
configuration, in program order (log level, headless export, cleanup). -/
def sideEffectEvents (c : Config) : List StartEvent :=
  logLevelEvents c ++ headlessEvents c ++ cleanEvents c

/-- The `start` command of `src/agent/cli/start.py`, as the trace of observable
actions it performs on the given CLI parameters and file configuration. -/
def start (prompt url : Option String) (clean debug headless : Bool)
    (language framework : String) (file : Config) : List StartEvent :=
  let c := applyOverrides prompt url clean debug headless language framework file
  sideEffectEvents c ++ validateAndCall c.agent

/-! ### State of the test directory under `start`'s cleanup

`rm -rf TEST_DIR/*` empties an existing directory but leaves the directory
itself in place; on a nonexistent directory the glob matches nothing. -/

/-- Abstract test-directory state: `none` when absent, otherwise the list of
entries it contains. -/
abbrev TestDirState := Option (List String)

/-- The effect of one `start` event on the test directory. -/
def applyStartEvent (s : TestDirState) (e : StartEvent) : TestDirState :=
  match e, s with
  | .cleanTestDirContents, some _ => some []
  | .cleanTestDirContents, none => none
  | _, s => s

/-! ## The environment scaffolder (`src/agent/scaffold.py`)

The scaffolding functions act on the test directory through `shutil`, `open`
and `subprocess`; they are embedded as traces of filesystem/process events in
program order. -/

/-- An observable action of a scaffolding function, in program order. -/
inductive FSEvent
  /-- `shutil.rmtree(Path(dir), ignore_errors=True)`: delete the whole
  directory, the directory itself included, ignoring errors. -/
  | deleteDirRecursive
  /-- `test_dir.mkdir(exist_ok=True)`: idempotent create. -/
  | mkdirExistOk
  /-- `open(test_dir / name, "w")` followed by `f.write(content)`. -/
  | writeFile (name content : String)
  /-- `subprocess.run(cmd, cwd=test_dir)` (no `check=True`). -/
  | runCmd (cmd : List String)
deriving DecidableEq, Repr

/-- Abstract state of the test directory: `none` when absent, otherwise its
files as (name, content) pairs in creation order. -/
abbrev DirState := Option (List (String × String))

/-- `delete_entire_dir` (lines 8–14): `shutil.rmtree` with
`ignore_errors=True` removes the directory and everything in it, and is a
no-op error-wise when the directory does not exist. -/
def delete_entire_dir : DirState → DirState := fun _ => none

/-- The effect of one scaffold event on the directory state.  A `runCmd`
event is an external process; its effect on the directory is not modelled. -/
def applyFSEvent (s : DirState) (e : FSEvent) : DirState :=
  match e, s with
  | .deleteDirRecursive, s => delete_entire_dir s
  | .mkdirExistOk, none => some []
  | .mkdirExistOk, some fs => some fs
  | .writeFile name content, some fs => some (fs ++ [(name, content)])
  | .writeFile _ _, none => none
  | .runCmd _, s => s

/-- Running a trace of scaffold events from an initial directory state. -/
def runFSEvents (s : DirState) (es : List FSEvent) : DirState :=
  es.foldl applyFSEvent s

/-- `scaffold_playwright` (lines 78–132): clean (optionally), create the
directory, stop for python, otherwise run the playwright init command and add
the `uuid` dev dependency. -/
def scaffold_playwright (language : String) (clean : Bool := true) : List FSEvent :=
  (if clean then [.deleteDirRecursive] else []) ++ [.mkdirExistOk] ++
    if language = "python" then []
    else
      [.runCmd ["npm", "init", "playwright", "--", "--yes", "--quiet",
          "--install-deps", "--no-examples", "--browser=chromium",
          "--lang=" ++ (if language = "typescript" then "Typescript" else "js"),
          "."],
        .runCmd ["npm", "install", "uuid", "--save-dev"]]

/-- The literal `package.json` template written by `scaffold_cypress`
(lines 196–214). -/
def packageJsonContent : String :=
  "\x7b\n  \"name\": \"agent-tests\",\n  \"version\": \"1.0.0\",\n  \"main\": \"index.js\",\n  \"scripts\": \x7b\n  \x7d,\n  \"keywords\": [],\n  \"author\": \"\",\n  \"license\": \"ISC\",\n  \"devDependencies\": \x7b\n    \"cypress\": \"latest\",\n    \"uuid\": \"latest\",\n    \"typescript\": \"latest\"\n  \x7d\n\x7d\n            "

/-- The literal `.gitignore` template written by `scaffold_cypress`
(lines 218–224). -/
def gitignoreContent : String :=
  "\nnode_modules/\n.cypress/\n            "

/-- The literal `cypress.config.ts` template (lines 228–239). -/
def cypressConfigTsContent : String :=
  "import \x7b defineConfig \x7d from \x27cypress\x27\n\nexport default defineConfig(\x7b\n  defaultCommandTimeout: 10000,\n  e2e: \x7b\n  \n  \x7d,\n\x7d)\n"

/-- The literal `tsconfig.json` template (lines 242–253). -/
def tsconfigJsonContent : String :=
  "\x7b\n  \"compilerOptions\": \x7b\n    \"target\": \"es5\",\n    \"lib\": [\"es5\", \"dom\"],\n    \"types\": [\"cypress\", \"node\"]\n  \x7d,\n  \"include\": [\"**/*.ts\"]\n\x7d\n"

/-- The literal `cypress.config.js` template (lines 257–265). -/
def cypressConfigJsContent : String :=
  "const \x7b defineConfig \x7d = require(\x27cypress\x27)\n\nmodule.exports = defineConfig(\x7b\n  defaultCommandTimeout: 10000,\n\x7d)\n"

/-- `scaffold_cypress` (lines 168–271): clean (optionally), create the
directory, stop for python; otherwise write `package.json` and `.gitignore`,
then the typescript files for `"typescript"` or `cypress.config.js` for
`"javascript"`, then run `npm install`. -/
def scaffold_cypress (language : String) (clean : Bool := true) : List FSEvent :=
  (if clean then [.deleteDirRecursive] else []) ++ [.mkdirExistOk] ++
    if language = "python" then []
    else
      [.writeFile "package.json" packageJsonContent,
        .writeFile ".gitignore" gitignoreContent] ++
      (if language = "typescript" then
        [.writeFile "cypress.config.ts" cypressConfigTsContent,
          .writeFile "tsconfig.json" tsconfigJsonContent]
      else []) ++
      (if language = "javascript" then
        [.writeFile "cypress.config.js" cypressConfigJsContent]
      else []) ++
      [.runCmd ["npm", "install"]]

/-- The files a scaffold trace writes, with their contents, in order. -/
def writesOf (es : List FSEvent) : List (String × String) :=
  es.filterMap fun e =>
    match e with
    | .writeFile name content => some (name, content)
    | _ => none

/-- The external commands a scaffold trace runs, in order. -/
def cmdsOf (es : List FSEvent) : List (List String) :=
  es.filterMap fun e =>
    match e with
    | .runCmd cmd => some cmd
    | _ => none

/-! ## Toolchain probes (`src/agent/scaffold.py`, lines 17–75 and 135–165)

Each probe wraps one `subprocess` call in `try/except`.  The outcome of that
call is abstracted as: success (with the captured output, for the
`check_output` probes), a `subprocess.CalledProcessError`, or an `OSError`. -/

/-- Outcome of the underlying subprocess invocation of a probe. -/
inductive ProbeOutcome
  | ok (output : String)
  | calledProcessError
  | osError
deriving DecidableEq, Repr

/-- A Python value returned by one of the probe functions. -/
inductive PyRet
  | pyStr (s : String)
  | pyTrue
  | pyFalse
  /-- Python's implicit `None` when a function falls off its end. -/
  | pyNone
deriving DecidableEq, Repr

/-- Result of `check_for_node`: the version string, or an abort of the whole
CLI (`raise typer.Exit()` after logging the remediation message). -/
inductive NodeProbeResult
  | version (s : String)
  /-- `logger.error(...)` then `raise typer.Exit()`; the logged message is the
  remediation text (the code appends `" : "` and the exception’s text). -/
  | exitWithMessage (msg : String)
deriving DecidableEq, Repr

/-- The remediation message logged by `check_for_node` on failure
(line 27–29), before the appended exception text. -/
def nodeRemediationMsg : String :=
  "Could not find Node.js installation. Please install it from https://nodejs.org"

/-- `check_for_node` (lines 17–31): returns the stripped version string on
success; `except Exception` catches any failure and aborts the CLI. -/
def check_for_node : ProbeOutcome → NodeProbeResult
  | .ok output => .version output.trim
  | .calledProcessError => .exitWithMessage nodeRemediationMsg
  | .osError => .exitWithMessage nodeRemediationMsg

/-- `check_for_npm` (lines 33–45): stripped version string on success,
`False` on `CalledProcessError` or `OSError`. -/
def check_for_npm : ProbeOutcome → PyRet
  | .ok output => .pyStr output.trim
  | .calledProcessError => .pyFalse
  | .osError => .pyFalse

/-- `check_for_playwright` (lines 48–60): same shape as `check_for_npm`. -/
def check_for_playwright : ProbeOutcome → PyRet
  | .ok output => .pyStr output.trim
  | .calledProcessError => .pyFalse
  | .osError => .pyFalse

/-- `check_for_cypress` (lines 63–75): same shape as `check_for_npm`. -/
def check_for_cypress : ProbeOutcome → PyRet
  | .ok output => .pyStr output.trim
  | .calledProcessError => .pyFalse
  | .osError => .pyFalse

/-- Outcome of a `subprocess.run(..., check=True)` invocation. -/
inductive RunOutcome
  | success
  | calledProcessError
  | osError
deriving DecidableEq, Repr

/-- `check_for_playwright_browsers` (lines 135–150): `False` on
`CalledProcessError` or `OSError`, and `return True` after a successful run. -/
def check_for_playwright_browsers : RunOutcome → PyRet
  | .success => .pyTrue
  | .calledProcessError => .pyFalse
  | .osError => .pyFalse

/-- `check_for_cypress_installation` (lines 153–165): `False` on
`CalledProcessError` or `OSError`; on success the function body ends with no
`return`, so Python returns `None`. -/
def check_for_cypress_installation : RunOutcome → PyRet
  | .success => .pyNone
  | .calledProcessError => .pyFalse
  | .osError => .pyFalse

/-! ## Concrete example configurations used by witnesses -/

/-- An example file configuration: no `prompt`/`url`, a file-supplied
`language` and `framework`, all flags off. -/
def fileCfgA : Config :=
  { agent :=
      { prompt := none, url := none,
        language := some "typescript", framework := some "cypress" },
    config :=
      { headless := .bool false, log_level := .str "INFO", clean := .bool false } }

/-- An example file configuration with every boolean flag set to `true` in the
file. -/
def fileCfgTrue : Config :=
  { agent :=
      { prompt := some "file prompt", url := some "http://file.example",
        language := some "javascript", framework := some "playwright" },
    config :=
      { headless := .bool true, log_level := .str "DEBUG", clean := .bool true } }

/-- An example merged `agent` section whose `prompt` is the empty string. -/
def agentEmptyPrompt : AgentSection :=
  { prompt := some "", url := some "http://example.com",
    language := some "python", framework := some "playwright" }

/-! ## Helper lemmas -/

/-- `applyOverrides` field-by-field: each effective field is the CLI value
when the CLI supplied one (for `language`/`framework`: whenever the string is
nonempty; for the booleans: whenever the flag is `true`), and the file value
otherwise. -/
theorem applyOverrides_eq (p u : Option String) (cl d h : Bool) (l f : String)
    (file : Config) :
    applyOverrides p u cl d h l f file =
      { agent :=
          { prompt := match p with | some s => some s | none => file.agent.prompt,
            url := match u with | some s => some s | none => file.agent.url,
            language := if l = "" then file.agent.language else some l,
            framework := if f = "" then file.agent.framework else some f },
        config :=
          { headless := if h then .bool true else file.config.headless,
            log_level := if d then .str "DEBUG" else file.config.log_level,
            clean := if cl then .bool true else file.config.clean } } := by
  cases p <;> cases u <;> cases h <;> cases d <;> cases cl <;>
    by_cases hl : l = "" <;> by_cases hf : f = "" <;>
      simp [applyOverrides, overridePrompt, overrideUrl, overrideHeadless,
        overrideDebug, overrideClean, overrideLanguage, overrideFramework, hl, hf]

/-- `start` unfolded: side effects from the merged configuration, then
validation. -/
theorem start_eq (p u : Option String) (cl d h : Bool) (l f : String)
    (file : Config) :
    start p u cl d h l f file =
      sideEffectEvents (applyOverrides p u cl d h l f file) ++
        validateAndCall (applyOverrides p u cl d h l f file).agent := rfl

/-- The side-effect prefix never calls the agent. -/
theorem callAgent_not_mem_sideEffectEvents (c : Config) (p0 u0 : String) :
    StartEvent.callAgent p0 u0 ∉ sideEffectEvents c := by
  simp only [sideEffectEvents, logLevelEvents, headlessEvents, cleanEvents]
  split_ifs <;> simp

/-- The side-effect prefix never exits. -/
theorem exitZero_not_mem_sideEffectEvents (c : Config) :
    StartEvent.exitZero ∉ sideEffectEvents c := by
  simp only [sideEffectEvents, logLevelEvents, headlessEvents, cleanEvents]
  split_ifs <;> simp

/-! ## Claims -/

/-- C1, counterexample: the CLI caller does not explicitly supply `language`
(so typer passes the default `"python"`) and the file supplies
`language = "typescript"`; the claim says the resolved value is the file's
`"typescript"`, but `if language:` is true of the nonempty default, so the
merge resolves `language` to `"python"`. -/
theorem C1_counterexample :
    (applyOverrides (some "check login flow") (some "http://example.com")
        false false false "python" "playwright" fileCfgA).agent.language
        = some "python" ∧
    fileCfgA.agent.language = some "typescript" ∧
    (applyOverrides (some "check login flow") (some "http://example.com")
        false false false "python" "playwright" fileCfgA).agent.language
        ≠ fileCfgA.agent.language := by
  refine ⟨rfl, rfl, ?_⟩
  decide

/-- C1 (amended): a CLI-supplied `prompt`/`url` (non-`None`) overrides the
file value, and the file value is kept when the CLI value is `None`; but for
`language` and `framework` the CLI value overrides whenever it is a nonempty
string — including the built-in defaults `"python"`/`"playwright"` passed when
the caller does not explicitly supply a value — so a file-supplied value
survives only when the CLI string is empty; the boolean flags override only
when `true`. -/
theorem C1_amended (p u : Option String) (cl d h : Bool) (l f : String)
    (file : Config) :
    ((applyOverrides p u cl d h l f file).agent.prompt
        = match p with | some s => some s | none => file.agent.prompt) ∧
    ((applyOverrides p u cl d h l f file).agent.url
        = match u with | some s => some s | none => file.agent.url) ∧
    ((applyOverrides p u cl d h l f file).agent.language
        = if l = "" then file.agent.language else some l) ∧
    ((applyOverrides p u cl d h l f file).agent.framework
        = if f = "" then file.agent.framework else some f) ∧
    ((applyOverrides p u cl d h l f file).config.headless
        = if h then .bool true else file.config.headless) ∧
    ((applyOverrides p u cl d h l f file).config.log_level
        = if d then .str "DEBUG" else file.config.log_level) ∧
    ((applyOverrides p u cl d h l f file).config.clean
        = if cl then .bool true else file.config.clean) := by
  rw [applyOverrides_eq]
  exact ⟨rfl, rfl, rfl, rfl, rfl, rfl, rfl⟩

/-- C2: after the merge, a missing (`None`) `agent.url` or `agent.prompt`
makes `start` print the message naming the field and both ways to supply it
and end with the exit-code-0 early exit, with no agent call anywhere in the
trace; when both are present, the trace ends with the agent called on the
resolved `prompt` and `url`, and the agent is only ever called on those
resolved values. -/
theorem C2 (p u : Option String) (cl d h : Bool) (l f : String) (file : Config) :
    ∀ c : Config, c = applyOverrides p u cl d h l f file →
      (missingFieldMsg "url"
          = "Please set agent.url in the config.toml file or pass it as the --url CLI option.") ∧
      (missingFieldMsg "prompt"
          = "Please set agent.prompt in the config.toml file or pass it as the --prompt CLI option.") ∧
      (c.agent.url = none →
        start p u cl d h l f file =
          sideEffectEvents c ++ [.printErr (missingFieldMsg "url"), .exitZero] ∧
        ∀ p0 u0, StartEvent.callAgent p0 u0 ∉ start p u cl d h l f file) ∧
      (∀ u0, c.agent.url = some u0 → c.agent.prompt = none →
        start p u cl d h l f file =
          sideEffectEvents c ++ [.printErr (missingFieldMsg "prompt"), .exitZero] ∧
        ∀ p0 u1, StartEvent.callAgent p0 u1 ∉ start p u cl d h l f file) ∧
      (∀ p0 u0, c.agent.prompt = some p0 → c.agent.url = some u0 →
        start p u cl d h l f file = sideEffectEvents c ++ [.callAgent p0 u0] ∧
        StartEvent.exitZero ∉ start p u cl d h l f file) := by
  intro c hc
  refine ⟨rfl, rfl, ?_, ?_, ?_⟩
  · intro hurl
    have hv : validateAndCall c.agent =
        [.printErr (missingFieldMsg "url"), .exitZero] := by
      simp [validateAndCall, hurl]
    constructor
    · rw [start_eq, ← hc, hv]
    · intro p0 u0
      rw [start_eq, ← hc, hv]
      simp only [List.mem_append]
      rintro (hmem | hmem)
      · exact callAgent_not_mem_sideEffectEvents c p0 u0 hmem
      · simp at hmem
  · intro u0 hurl hprompt
    have hv : validateAndCall c.agent =
        [.printErr (missingFieldMsg "prompt"), .exitZero] := by
      simp [validateAndCall, hurl, hprompt]
    constructor
    · rw [start_eq, ← hc, hv]
    · intro p0 u1
      rw [start_eq, ← hc, hv]
      simp only [List.mem_append]
      rintro (hmem | hmem)
      · exact callAgent_not_mem_sideEffectEvents c p0 u1 hmem
      · simp at hmem
  · intro p0 u0 hprompt hurl
    have hv : validateAndCall c.agent = [.callAgent p0 u0] := by
      simp [validateAndCall, hurl, hprompt]
    constructor
    · rw [start_eq, ← hc, hv]
    · rw [start_eq, ← hc, hv]
      simp only [List.mem_append]
      rintro (hmem | hmem)
      · exact exitZero_not_mem_sideEffectEvents c hmem
      · simp at hmem

/-- C2, witness: with no `url` from either source, `start` prints the `url`
remediation message and exits with code 0. -/
theorem C2_witness :
    start (some "check login flow") none false false false "python" "playwright"
        fileCfgA =
      sideEffectEvents (applyOverrides (some "check login flow") none false false
          false "python" "playwright" fileCfgA) ++
        [.printErr (missingFieldMsg "url"), .exitZero] :=
  (((C2 (some "check login flow") none false false false "python" "playwright"
      fileCfgA) _ rfl).2.2.1 rfl).1

/-- C3: whenever the merged `clean` value stringifies (lower-cased) to
`"true"`, the trace of `start` performs the contents-only deletion of the test
directory — which empties an existing directory but keeps the directory itself
— and every validation event (message, exit, agent call) comes after it; in
particular the deletion is in the trace even when `agent.url` or
`agent.prompt` is missing and the run ends in the early exit. -/
theorem C3 (p u : Option String) (cl d h : Bool) (l f : String) (file : Config) :
    ∀ c : Config, c = applyOverrides p u cl d h l f file →
      pyLower (pyStr c.config.clean) = "true" →
      (start p u cl d h l f file =
          logLevelEvents c ++ headlessEvents c ++
            ([StartEvent.cleanTestDirContents] ++ validateAndCall c.agent)) ∧
      (∀ files, applyStartEvent (some files) .cleanTestDirContents = some []) ∧
      (applyStartEvent none .cleanTestDirContents = none) ∧
      ((c.agent.url = none ∨ c.agent.prompt = none) →
        StartEvent.cleanTestDirContents ∈ start p u cl d h l f file ∧
        StartEvent.exitZero ∈ start p u cl d h l f file) := by
  intro c hc hclean
  have hce : cleanEvents c = [StartEvent.cleanTestDirContents] := by
    simp [cleanEvents, hclean]
  have htr : start p u cl d h l f file =
      logLevelEvents c ++ headlessEvents c ++
        ([StartEvent.cleanTestDirContents] ++ validateAndCall c.agent) := by
    rw [start_eq, ← hc, sideEffectEvents, hce, List.append_assoc]
  refine ⟨htr, fun files => rfl, rfl, ?_⟩
  intro hmissing
  have hexit : StartEvent.exitZero ∈ validateAndCall c.agent := by
    rcases hmissing with hurl | hprompt
    · simp [validateAndCall, hurl]
    · cases hu : c.agent.url with
      | none => simp [validateAndCall, hu]
      | some u0 => simp [validateAndCall, hu, hprompt]
  constructor
  · rw [htr]; simp
  · rw [htr]; simp only [List.mem_append]
    exact Or.inr (Or.inr hexit)

/-- C3, witness: `--clean` with a missing `url` still performs the deletion
and then exits. -/
theorem C3_witness :
    StartEvent.cleanTestDirContents ∈
        start none none true false false "python" "playwright" fileCfgA ∧
    StartEvent.exitZero ∈
        start none none true false false "python" "playwright" fileCfgA :=
  ((C3 none none true false false "python" "playwright" fileCfgA) _ rfl
    (by decide)).2.2.2 (Or.inl rfl)

/-- C4: the boolean flags only override when `true` — with the flag `false`
the file's value (in particular a file-set `true`) survives the merge
untouched, and with the flag `true` the merged value is the CLI's (`debug`
setting `log_level` to `"DEBUG"`). -/
theorem C4 (p u : Option String) (cl d h : Bool) (l f : String) (file : Config) :
    (h = false →
        (applyOverrides p u cl d h l f file).config.headless
          = file.config.headless) ∧
    (d = false →
        (applyOverrides p u cl d h l f file).config.log_level
          = file.config.log_level) ∧
    (cl = false →
        (applyOverrides p u cl d h l f file).config.clean
          = file.config.clean) ∧
    (h = true →
        (applyOverrides p u cl d h l f file).config.headless
          = ConfigValue.bool true) ∧
    (d = true →
        (applyOverrides p u cl d h l f file).config.log_level
          = ConfigValue.str "DEBUG") ∧
    (cl = true →
        (applyOverrides p u cl d h l f file).config.clean
          = ConfigValue.bool true) := by
  rw [applyOverrides_eq]
  refine ⟨?_, ?_, ?_, ?_, ?_, ?_⟩ <;> rintro rfl <;> rfl

/-- C4, witness: every flag set `true` in the file, every CLI flag `false`:
the file's `true` settings survive the merge. -/
theorem C4_witness :
    (applyOverrides none none false false false "python" "playwright"
        fileCfgTrue).config.headless = fileCfgTrue.config.headless ∧
    (applyOverrides none none false false false "python" "playwright"
        fileCfgTrue).config.clean = fileCfgTrue.config.clean :=
  ⟨(C4 none none false false false "python" "playwright" fileCfgTrue).1 rfl,
    (C4 none none false false false "python" "playwright" fileCfgTrue).2.2.1 rfl⟩

/-- C10: validation only rejects a missing (`None`) field — the early exit
implies `url` or `prompt` is `None` — and a present-but-empty string passes:
with `prompt = ""` (or `url = ""`) the agent is called with that empty string
as its argument. -/
theorem C10 (a : AgentSection) :
    (StartEvent.exitZero ∈ validateAndCall a →
        a.url = none ∨ a.prompt = none) ∧
    (∀ u0, a.prompt = some "" → a.url = some u0 →
        validateAndCall a = [.callAgent "" u0]) ∧
    (∀ p0, a.prompt = some p0 → a.url = some "" →
        validateAndCall a = [.callAgent p0 ""]) := by
  refine ⟨?_, ?_, ?_⟩
  · intro hmem
    cases hu : a.url with
    | none => exact Or.inl rfl
    | some u0 =>
      cases hp : a.prompt with
      | none => exact Or.inr rfl
      | some p0 =>
        rw [validateAndCall, hu, hp] at hmem
        simp at hmem
  · intro u0 hp hu
    simp [validateAndCall, hu, hp]
  · intro p0 hp hu
    simp [validateAndCall, hu, hp]

/-- C10, witness: an empty `prompt` passes validation and the agent is called
with the empty string. -/
theorem C10_witness :
    validateAndCall agentEmptyPrompt = [.callAgent "" "http://example.com"] :=
  (C10 agentEmptyPrompt).2.1 "http://example.com" rfl rfl

/-- C5: for cypress/typescript the scaffold writes exactly `package.json`,
`.gitignore`, `cypress.config.ts` and `tsconfig.json` with their literal
template contents, all before the single `npm install`; for cypress/javascript
exactly the three files `package.json`, `.gitignore` and `cypress.config.js`
and no `tsconfig.json`. -/
theorem C5 (clean : Bool) :
    writesOf (scaffold_cypress "typescript" clean) =
      [("package.json", packageJsonContent), (".gitignore", gitignoreContent),
        ("cypress.config.ts", cypressConfigTsContent),
        ("tsconfig.json", tsconfigJsonContent)] ∧
    writesOf (scaffold_cypress "javascript" clean) =
      [("package.json", packageJsonContent), (".gitignore", gitignoreContent),
        ("cypress.config.js", cypressConfigJsContent)] ∧
    scaffold_cypress "typescript" clean =
      (if clean then [FSEvent.deleteDirRecursive] else []) ++ [FSEvent.mkdirExistOk] ++
        [FSEvent.writeFile "package.json" packageJsonContent,
          FSEvent.writeFile ".gitignore" gitignoreContent,
          FSEvent.writeFile "cypress.config.ts" cypressConfigTsContent,
          FSEvent.writeFile "tsconfig.json" tsconfigJsonContent] ++
        [FSEvent.runCmd ["npm", "install"]] ∧
    scaffold_cypress "javascript" clean =
      (if clean then [FSEvent.deleteDirRecursive] else []) ++ [FSEvent.mkdirExistOk] ++
        [FSEvent.writeFile "package.json" packageJsonContent,
          FSEvent.writeFile ".gitignore" gitignoreContent,
          FSEvent.writeFile "cypress.config.js" cypressConfigJsContent] ++
        [FSEvent.runCmd ["npm", "install"]] := by
  cases clean <;> exact ⟨rfl, rfl, rfl, rfl⟩

/-- C6: for python, both scaffolds only clean (when asked) and create the
directory: no file is written and no command is run. -/
theorem C6 (clean : Bool) :
    scaffold_playwright "python" clean =
      (if clean then [FSEvent.deleteDirRecursive] else []) ++ [FSEvent.mkdirExistOk] ∧
    scaffold_cypress "python" clean =
      (if clean then [FSEvent.deleteDirRecursive] else []) ++ [FSEvent.mkdirExistOk] ∧
    writesOf (scaffold_playwright "python" clean) = [] ∧
    cmdsOf (scaffold_playwright "python" clean) = [] ∧
    writesOf (scaffold_cypress "python" clean) = [] ∧
    cmdsOf (scaffold_cypress "python" clean) = [] := by
  cases clean <;> exact ⟨rfl, rfl, rfl, rfl, rfl, rfl⟩

/-- C7: with `clean = true`, both scaffolds start by deleting the whole test
directory (the directory itself included — `delete_entire_dir` maps every
prior state, existing or absent, to "absent", ignoring errors) and then
recreating it, so from any prior state the directory exists and is empty
before any later event of the trace (in particular before any file write). -/
theorem C7 (s0 : DirState) (language : String) :
    (∃ rest, scaffold_playwright language true =
        FSEvent.deleteDirRecursive :: FSEvent.mkdirExistOk :: rest) ∧
    (∃ rest, scaffold_cypress language true =
        FSEvent.deleteDirRecursive :: FSEvent.mkdirExistOk :: rest) ∧
    delete_entire_dir s0 = none ∧
    runFSEvents s0 [FSEvent.deleteDirRecursive, FSEvent.mkdirExistOk] = some [] := by
  constructor
  · unfold scaffold_playwright
    exact ⟨_, rfl⟩
  constructor
  · unfold scaffold_cypress
    exact ⟨_, rfl⟩
  exact ⟨rfl, rfl⟩

/-- C8: the npm, playwright and cypress probes turn both failure modes of the
version query (`CalledProcessError`, `OSError`) into a returned `False`; the
node probe instead aborts the CLI with the remediation message on any
failure. -/
theorem C8 (r : ProbeOutcome) (hr : r = .calledProcessError ∨ r = .osError) :
    check_for_npm r = .pyFalse ∧
    check_for_playwright r = .pyFalse ∧
    check_for_cypress r = .pyFalse ∧
    check_for_node r = .exitWithMessage nodeRemediationMsg := by
  rcases hr with rfl | rfl <;> exact ⟨rfl, rfl, rfl, rfl⟩

/-- C8, witness: a probe whose subprocess exits non-zero returns `False` for
npm/playwright/cypress, and the node probe aborts with the remediation
message. -/
theorem C8_witness :
    check_for_npm .calledProcessError = .pyFalse ∧
    check_for_playwright .calledProcessError = .pyFalse ∧
    check_for_cypress .calledProcessError = .pyFalse ∧
    check_for_node .calledProcessError = .exitWithMessage nodeRemediationMsg :=
  C8 .calledProcessError (Or.inl rfl)

/-- C9, counterexample: the two browser verify/install steps do not have
identical return-value behavior — on success the Playwright variant returns
`True` while the Cypress variant falls off its end and returns `None`. -/
theorem C9_counterexample :
    check_for_cypress_installation .success ≠ check_for_playwright_browsers .success ∧
    check_for_playwright_browsers .success = .pyTrue ∧
    check_for_cypress_installation .success = .pyNone := by
  exact ⟨by decide, rfl, rfl⟩

/-- C9 (amended): on any failure both browser verify/install steps return
`False` rather than raising — identical failure semantics — but on success the
Playwright variant returns `True` while the Cypress variant returns `None`. -/
theorem C9_amended :
    (∀ r : RunOutcome, r ≠ .success →
        check_for_playwright_browsers r = .pyFalse ∧
        check_for_cypress_installation r = .pyFalse) ∧
    check_for_playwright_browsers .success = .pyTrue ∧
    check_for_cypress_installation .success = .pyNone := by
  refine ⟨?_, rfl, rfl⟩
  intro r hr
  cases r with
  | success => exact absurd rfl hr
  | calledProcessError => exact ⟨rfl, rfl⟩
  | osError => exact ⟨rfl, rfl⟩

/-- C9, witness: on an OS-level launch failure both variants return `False`. -/
theorem C9_amended_witness :
    check_for_playwright_browsers .osError = .pyFalse ∧
    check_for_cypress_installation .osError = .pyFalse :=
  C9_amended.1 .osError (by decide)

end Aigent

